import Mathlib

/-!
# HealthGuard village-mapping core: shallow embedding and verification

This file embeds the risk-classification and spatial-clustering pipeline of
the HealthGuard application in Lean 4 and proves properties of it.

Sources embedded:
* the data model (`types.ts`: `HealthStatus`, `Coordinates`, `Comment`,
  `AIAnalysisResult`, `Village`, `CaseReport`, `OutbreakCluster`);
* `handleReportSubmit` and `handleAddComment` from `src/App.tsx` (the current
  App component; `src/unnamed/part_003` contains an earlier copy of the same
  handler that does not yet cache `lastAnalysis` on the village);
* `analyzeVillageHealth` and `analyzeClusters` from the Gemini service
  (second half of `src/unnamed/part_003`).

External effects are made explicit parameters: the AI risk oracle and the
cluster advisory oracle become functions returning `Option` (with `none`
modelling a failed call, so the `try`/`catch` fallback paths of the source
become `Option.getD`); wall-clock timestamps become a `now : String`
argument; the haversine distance helper (`getDistance`, a float computation)
becomes a `dist` function parameter over rational coordinates. Machine
floats are modelled as `ℚ`.
-/

namespace HealthGuard

/-- `HealthStatus` enum from `types.ts`: Green (safe), Yellow (moderate
risk), Red (outbreak/critical). -/
inductive HealthStatus where
  | GREEN
  | YELLOW
  | RED
deriving DecidableEq, Repr

/-- `Coordinates` from `types.ts`; floats modelled as rationals. -/
structure Coordinates where
  lat : ℚ
  lng : ℚ
deriving DecidableEq, Repr

/-- `Comment` from `types.ts`. -/
structure Comment where
  id : String
  author : String
  text : String
  timestamp : String
deriving DecidableEq, Repr

/-- `AIAnalysisResult` from `types.ts` (oracle output). -/
structure AIAnalysisResult where
  riskLevel : HealthStatus
  reasoning : String
  recommendedActions : List String
  predictedOutbreakChance : ℚ
  possibleDiagnosis : String
deriving DecidableEq, Repr

/-- `Village` from `types.ts`. -/
structure Village where
  id : String
  name : String
  district : String
  coordinates : Coordinates
  population : ℕ
  activeCases : ℕ
  status : HealthStatus
  lastReported : String
  lastAshaWorker : Option String := none
  dominantSymptoms : List String
  comments : List Comment
  lastAnalysis : Option AIAnalysisResult := none
deriving DecidableEq, Repr

/-- Sanitation values from `types.ts` (`'Good' | 'Ok' | 'Worst'`). -/
inductive SanitationStatus where
  | Good
  | Ok
  | Worst
deriving DecidableEq, Repr

/-- `CaseReport` from `types.ts`. -/
structure CaseReport where
  id : String
  villageId : String
  workerName : String
  workerLocation : String
  sanitationStatus : SanitationStatus
  diseaseType : String
  symptoms : String
  affectedCount : ℕ
  timestamp : String
  notes : String
deriving DecidableEq, Repr

/-- `OutbreakCluster` from `types.ts`. -/
structure OutbreakCluster where
  id : String
  villageIds : List String
  center : Coordinates
  radius : ℚ
  severity : HealthStatus
  aiAdvice : String
deriving DecidableEq, Repr

/-- The risk oracle (`ai.models.generateContent` + JSON parse inside
`analyzeVillageHealth`): given the village context and the report it either
produces a structured result or fails (`none` covers network errors, an
empty response and JSON parse failures — everything the source `catch`es). -/
def RiskOracle : Type := Village → CaseReport → Option AIAnalysisResult

/-- The advisory oracle used per cluster in `analyzeClusters`: its prompt is
built from the member villages and the severity; it returns free text or
fails. -/
def AdviceOracle : Type := List Village → HealthStatus → Option String

/-- The fixed conservative fallback returned by `analyzeVillageHealth`'s
`catch` block (geminiService). -/
def fallbackAnalysis : AIAnalysisResult :=
  { riskLevel := HealthStatus.YELLOW
    reasoning := "AI Analysis unavailable. Defaulting to moderate caution due to new report."
    predictedOutbreakChance := 50
    possibleDiagnosis := "Analysis Failed - Refer to Doctor"
    recommendedActions := ["Monitor situation closely", "Dispatch field team for manual verification"] }

/-- `analyzeVillageHealth` (geminiService): try the oracle; every failure
path returns `fallbackAnalysis` instead of raising. -/
def analyzeVillageHealth (oracle : RiskOracle) (village : Village)
    (newReport : CaseReport) : AIAnalysisResult :=
  match oracle village newReport with
  | some analysis => analysis
  | none => fallbackAnalysis

/-- JS `String.prototype.split` with a one-character separator, over the
character list: `"a,b"` gives `["a","b"]`, `""` gives `[""]`, `"a,"` gives
`["a",""]`. (Defined structurally so that the kernel can evaluate it; the
library `String.splitOn` is a well-founded recursion the kernel cannot
unfold.) -/
def splitOnChar (sep : Char) : List Char → List (List Char)
  | [] => [[]]
  | c :: cs =>
    if c = sep then [] :: splitOnChar sep cs
    else
      match splitOnChar sep cs with
      | [] => [[c]]
      | p :: ps => (c :: p) :: ps

/-- JS `String.prototype.trim` over the character list: drop whitespace
from both ends. -/
def trimChars (cs : List Char) : List Char :=
  ((cs.dropWhile Char.isWhitespace).reverse.dropWhile Char.isWhitespace).reverse

/-- Sign/integer-part/fraction-digits/fraction-length representation of a
successfully parsed float: `(neg, ip, fp, fl)` denotes
`(-1)^neg * (ip + fp / 10^fl)`. -/
abbrev FloatRepr : Type := Bool × ℕ × ℕ × ℕ

/-- Digit-folding helper: the value of a digit string. -/
def digitsToNat (cs : List Char) : ℕ :=
  cs.foldl (fun a c => 10 * a + (c.toNat - 48)) 0

/-- Models JavaScript `parseFloat` on an already-trimmed string, restricted
to plain decimal notation (optional sign, digits, optional fractional part;
no exponent or Infinity forms, which never arise from the GPS strings this
code parses). `none` models `NaN`. Returns the parts representation;
`floatReprToRat` turns it into the rational value. -/
def jsParseFloatRepr (cs : List Char) : Option FloatRepr :=
  let signAndRest : Bool × List Char :=
    match cs with
    | '-' :: t => (true, t)
    | '+' :: t => (false, t)
    | _ => (false, cs)
  let ipart := signAndRest.2.takeWhile Char.isDigit
  let rest := signAndRest.2.dropWhile Char.isDigit
  let fpart : List Char :=
    match rest with
    | '.' :: t => t.takeWhile Char.isDigit
    | _ => []
  if ipart.isEmpty ∧ fpart.isEmpty then none
  else some (signAndRest.1, digitsToNat ipart, digitsToNat fpart, fpart.length)

/-- The rational value denoted by a parsed float representation. -/
def floatReprToRat : FloatRepr → ℚ
  | (neg, ip, fp, fl) =>
    (if neg then (-1 : ℚ) else 1) * ((ip : ℚ) + (fp : ℚ) / ((10 : ℚ) ^ fl))

/-- The fixed default coordinates used for a new village when the worker
location cannot be parsed (`{ lat: 20.5937, lng: 78.9629 }`, "Default India
center" in `handleReportSubmit`). -/
def defaultCenter : Coordinates := { lat := 20.5937, lng := 78.9629 }

/-- Character-level stage of the coordinate parsing in
`handleReportSubmit`: if the string contains a comma, split on commas, trim
and `parseFloat` the first two parts, succeeding only when both parse (the
`!isNaN` guard of the source). -/
def parseWorkerCoordsRepr (cs : List Char) : Option (FloatRepr × FloatRepr) :=
  if cs.contains ',' then
    match (splitOnChar ',' cs).map (fun part => jsParseFloatRepr (trimChars part)) with
    | some a :: some b :: _ => some (a, b)
    | _ => none
  else none

/-- The coordinate-parsing step of `handleReportSubmit` for a new village:
parsed `lat, lng` on success, the default India center otherwise. (The JS
`report.workerLocation &&` truthiness guard is subsumed: the empty string
contains no comma.) -/
def parseWorkerCoords (workerLocation : String) : Coordinates :=
  match parseWorkerCoordsRepr workerLocation.toList with
  | some (a, b) => { lat := floatReprToRat a, lng := floatReprToRat b }
  | none => defaultCenter

/-- The new-village record synthesized by `handleReportSubmit` when
`report.villageId` is not in the repository. -/
def freshVillage (report : CaseReport) (villageName now : String) : Village :=
  { id := report.villageId
    name := villageName
    district := "Detected via GPS"
    coordinates := parseWorkerCoords report.workerLocation
    population := 1000
    activeCases := 0
    status := HealthStatus.GREEN
    lastReported := now
    lastAshaWorker := none
    dominantSymptoms := []
    comments := []
    lastAnalysis := none }

/-- `report.symptoms.split(',')[0] || 'Unknown'`: the first comma-separated
token, with the JS falsy/empty case replaced by `"Unknown"`. -/
def firstSymptomToken (symptoms : String) : String :=
  let t : String := ⟨(splitOnChar ',' symptoms.toList).headD []⟩
  if t = "" then "Unknown" else t

/-- `Array.from(new Set(l))`: deduplicate keeping the first occurrence of
each element, preserving insertion order (JS `Set` semantics). -/
def jsSetDedup (l : List String) : List String :=
  go l []
where
  /-- Walk the list, skipping elements already seen. -/
  go : List String → List String → List String
    | [], _ => []
    | x :: xs, seen => if x ∈ seen then go xs seen else x :: go xs (x :: seen)

/-- Result of one report ingestion, bundling the three observable outputs of
`handleReportSubmit`: the new village list (`setVillages`), the analysis
shown to the user (`setLatestAnalysis`) and the updated village record. -/
structure IngestResult where
  villages : List Village
  analysis : AIAnalysisResult
  updatedVillage : Village
deriving Repr

/-- `handleReportSubmit` from `src/App.tsx`: resolve or synthesize the
village, run the risk analysis (with fallback), then build the updated
village — `activeCases` grows by `affectedCount`, `status` becomes the
analysis risk level, symptoms gain the report's first symptom token (JS
`Set` union), `lastAnalysis` caches the analysis — and commit it (append if
new, replace by id otherwise). The `comments: village.comments || []` guard
of the source is the identity here because `comments` is non-optional in the
typed model. -/
def handleReportSubmit (oracle : RiskOracle) (now : String)
    (villages : List Village) (report : CaseReport) (villageName : String) :
    IngestResult :=
  let found := villages.find? (fun v => v.id = report.villageId)
  let village := found.getD (freshVillage report villageName now)
  let analysis := analyzeVillageHealth oracle village report
  let updated : Village :=
    { village with
      activeCases := village.activeCases + report.affectedCount
      status := analysis.riskLevel
      lastReported := now
      lastAshaWorker := some report.workerName
      dominantSymptoms := jsSetDedup (village.dominantSymptoms ++ [firstSymptomToken report.symptoms])
      comments := village.comments
      lastAnalysis := some analysis }
  let newVillages :=
    match found with
    | none => villages ++ [updated]
    | some _ => villages.map (fun v => if v.id = updated.id then updated else v)
  ⟨newVillages, analysis, updated⟩

/-- `handleAddComment` from `src/App.tsx`: blank (whitespace-only) input is
rejected up front; otherwise a comment authored by `"Public User"` is
prepended to the matching village's comment list, all other villages mapped
through unchanged. `newId` models `crypto.randomUUID()` and `now` the
timestamp. -/
def handleAddComment (villages : List Village) (villageId : String)
    (commentText : String) (newId now : String) : List Village :=
  if trimChars commentText.toList = [] then villages
  else
    let newComment : Comment :=
      { id := newId, author := "Public User", text := commentText, timestamp := now }
    villages.map (fun v =>
      if v.id = villageId then { v with comments := newComment :: v.comments } else v)

/-- The 15 km clustering radius (`DISTANCE_THRESHOLD`, meters). -/
def DISTANCE_THRESHOLD : ℚ := 15000

/-- Inner loop of `analyzeClusters`: scan the villages after the anchor
`v1`, skip already-processed ones, and add every village within
`DISTANCE_THRESHOLD` of `v1` to the cluster, marking it processed. Returns
the added members (in scan order) and the updated processed set. -/
def addNeighbors (dist : Coordinates → Coordinates → ℚ) (v1 : Village) :
    List Village → List String → List Village × List String
  | [], processed => ([], processed)
  | v2 :: rest, processed =>
    if v2.id ∈ processed then addNeighbors dist v1 rest processed
    else if dist v1.coordinates v2.coordinates ≤ DISTANCE_THRESHOLD then
      let r := addNeighbors dist v1 rest (v2.id :: processed)
      (v2 :: r.1, r.2)
    else addNeighbors dist v1 rest processed

/-- Cluster construction for a retained member list (body of the
`if (currentCluster.length >= 2)` branch): center is the arithmetic mean of
member coordinates, severity is RED when any member is RED, radius is half
the threshold, and the advisory oracle's text falls back to the fixed
string. `now` models the `Date.now()` component of the id and `i` the
anchor's index in the filtered list. -/
def mkCluster (adviceOracle : AdviceOracle) (now : String) (i : ℕ)
    (members : List Village) : OutbreakCluster :=
  let center : Coordinates :=
    { lat := (members.map (fun v => v.coordinates.lat)).sum / members.length
      lng := (members.map (fun v => v.coordinates.lng)).sum / members.length }
  let severity :=
    if members.any (fun v => v.status = HealthStatus.RED) then HealthStatus.RED
    else HealthStatus.YELLOW
  let aiAdvice := (adviceOracle members severity).getD "Cluster detected. Coordinate resources."
  { id := "cluster-" ++ now ++ "-" ++ toString i
    villageIds := members.map (fun v => v.id)
    center := center
    radius := DISTANCE_THRESHOLD / 2
    severity := severity
    aiAdvice := aiAdvice }

/-- Outer loop of `analyzeClusters` over the filtered (non-GREEN) village
list: each unprocessed village anchors a candidate cluster of itself plus
its in-threshold unprocessed successors; clusters of fewer than 2 members
are discarded (their anchor stays marked processed, as in the source). `i`
tracks the anchor index used in cluster ids. -/
def clusterLoop (dist : Coordinates → Coordinates → ℚ)
    (adviceOracle : AdviceOracle) (now : String) :
    List Village → List String → ℕ → List OutbreakCluster
  | [], _, _ => []
  | v1 :: rest, processed, i =>
    if v1.id ∈ processed then clusterLoop dist adviceOracle now rest processed (i + 1)
    else
      let r := addNeighbors dist v1 rest (v1.id :: processed)
      let currentCluster := v1 :: r.1
      if 2 ≤ currentCluster.length then
        mkCluster adviceOracle now i currentCluster ::
          clusterLoop dist adviceOracle now rest r.2 (i + 1)
      else clusterLoop dist adviceOracle now rest r.2 (i + 1)

/-- `analyzeClusters` (geminiService): restrict to unsafe (non-GREEN)
villages preserving order, then run the greedy star-grouping pass. -/
def analyzeClusters (dist : Coordinates → Coordinates → ℚ)
    (adviceOracle : AdviceOracle) (now : String) (villages : List Village) :
    List OutbreakCluster :=
  let nonGreen := villages.filter (fun v => v.status ≠ HealthStatus.GREEN)
  clusterLoop dist adviceOracle now nonGreen [] 0

/-! ### Concrete fixtures used to instantiate the theorems -/

/-- A risk oracle whose call always fails (models a network/service error
caught by `analyzeVillageHealth`). -/
def failOracle : RiskOracle := fun _ _ => none

/-- An advisory oracle whose call always fails. -/
def noAdvice : AdviceOracle := fun _ _ => none

/-- A distance function placing every pair of points within threshold. -/
def zeroDist : Coordinates → Coordinates → ℚ := fun _ _ => 0

/-- A distance table keyed on latitudes 0, 1, 2, realizing the spec's
A-B = 10 km, B-C = 10 km, A-C = 25 km scenario. -/
def tableDist : Coordinates → Coordinates → ℚ := fun a b =>
  if a.lat = 0 ∧ b.lat = 1 then 10000
  else if a.lat = 1 ∧ b.lat = 2 then 10000
  else if a.lat = 0 ∧ b.lat = 2 then 25000
  else 0

/-- Village fixture builder. -/
def sampleVillage (id : String) (lat lng : ℚ) (st : HealthStatus) (cases : ℕ) : Village :=
  { id := id
    name := id
    district := "D1"
    coordinates := { lat := lat, lng := lng }
    population := 1200
    activeCases := cases
    status := st
    lastReported := "t0"
    lastAshaWorker := none
    dominantSymptoms := []
    comments := []
    lastAnalysis := none }

/-- Case-report fixture builder. -/
def sampleReport (vid loc symptoms : String) (n : ℕ) : CaseReport :=
  { id := "r1"
    villageId := vid
    workerName := "Asha W"
    workerLocation := loc
    sanitationStatus := SanitationStatus.Worst
    diseaseType := "Unknown"
    symptoms := symptoms
    affectedCount := n
    timestamp := "t1"
    notes := "" }

/-- One ingestion step against a fixed village id "A" with a failing
oracle, keeping only the resulting village list. -/
def ingestStep (symptoms : String) (villages : List Village) : List Village :=
  (handleReportSubmit failOracle "t" villages (sampleReport "A" "0,0" symptoms 1) "A").villages

/-! ### Helper lemmas -/

/-- The inner loop of `jsSetDedup` never grows the list. -/
theorem jsSetDedup_go_length (l seen : List String) :
    (jsSetDedup.go l seen).length ≤ l.length := by
  induction l generalizing seen with
  | nil => simp [jsSetDedup.go]
  | cons x xs ih =>
    simp only [jsSetDedup.go]
    split
    · exact (ih seen).trans (Nat.le_succ _)
    · simpa using ih (x :: seen)

/-- The inner loop of `jsSetDedup` produces a duplicate-free list avoiding
the seen set. -/
theorem jsSetDedup_go_spec (l seen : List String) :
    (jsSetDedup.go l seen).Nodup ∧ ∀ x ∈ jsSetDedup.go l seen, x ∉ seen := by
  induction l generalizing seen with
  | nil => simp [jsSetDedup.go]
  | cons x xs ih =>
    simp only [jsSetDedup.go]
    split
    · exact ih seen
    · next h =>
      obtain ⟨hnd, hni⟩ := ih (x :: seen)
      refine ⟨List.nodup_cons.mpr ⟨fun hx => hni x hx (List.mem_cons_self x seen), hnd⟩, ?_⟩
      intro y hy
      rcases List.mem_cons.mp hy with rfl | hy'
      · exact h
      · exact fun hys => hni y hy' (List.mem_cons_of_mem _ hys)

/-- `jsSetDedup` output is duplicate-free. -/
theorem jsSetDedup_nodup (l : List String) : (jsSetDedup l).Nodup :=
  (jsSetDedup_go_spec l []).1

/-- Appending one element before deduplicating grows the result by at most
one entry. -/
theorem jsSetDedup_snoc_length (l : List String) (x : String) :
    (jsSetDedup (l ++ [x])).length ≤ l.length + 1 := by
  have h := jsSetDedup_go_length (l ++ [x]) []
  simpa using h

/-- Unfolding `addNeighbors` when the head is already processed. -/
theorem addNeighbors_cons_processed {dist : Coordinates → Coordinates → ℚ}
    {v1 v2 : Village} {rest : List Village} {processed : List String}
    (h : v2.id ∈ processed) :
    addNeighbors dist v1 (v2 :: rest) processed = addNeighbors dist v1 rest processed := by
  simp [addNeighbors, h]

/-- Unfolding `addNeighbors` when the head is unprocessed and within
threshold. -/
theorem addNeighbors_cons_near {dist : Coordinates → Coordinates → ℚ}
    {v1 v2 : Village} {rest : List Village} {processed : List String}
    (h : v2.id ∉ processed)
    (h2 : dist v1.coordinates v2.coordinates ≤ DISTANCE_THRESHOLD) :
    addNeighbors dist v1 (v2 :: rest) processed
      = (v2 :: (addNeighbors dist v1 rest (v2.id :: processed)).1,
         (addNeighbors dist v1 rest (v2.id :: processed)).2) := by
  simp [addNeighbors, h, h2]

/-- Unfolding `addNeighbors` when the head is unprocessed but out of
range. -/
theorem addNeighbors_cons_far {dist : Coordinates → Coordinates → ℚ}
    {v1 v2 : Village} {rest : List Village} {processed : List String}
    (h : v2.id ∉ processed)
    (h2 : ¬ dist v1.coordinates v2.coordinates ≤ DISTANCE_THRESHOLD) :
    addNeighbors dist v1 (v2 :: rest) processed = addNeighbors dist v1 rest processed := by
  simp [addNeighbors, h, h2]

/-- Every village collected by `addNeighbors` comes from the scanned
suffix. -/
theorem addNeighbors_mem (dist : Coordinates → Coordinates → ℚ) (v1 : Village) :
    ∀ (rest : List Village) (processed : List String),
      ∀ v ∈ (addNeighbors dist v1 rest processed).1, v ∈ rest := by
  intro rest
  induction rest with
  | nil => intro processed v hv; simp [addNeighbors] at hv
  | cons v2 rest ih =>
    intro processed v hv
    by_cases h1 : v2.id ∈ processed
    · rw [addNeighbors_cons_processed h1] at hv
      exact List.mem_cons_of_mem _ (ih _ v hv)
    · by_cases h2 : dist v1.coordinates v2.coordinates ≤ DISTANCE_THRESHOLD
      · rw [addNeighbors_cons_near h1 h2] at hv
        rcases List.mem_cons.mp hv with rfl | hv'
        · exact List.mem_cons_self _ _
        · exact List.mem_cons_of_mem _ (ih _ v hv')
      · rw [addNeighbors_cons_far h1 h2] at hv
        exact List.mem_cons_of_mem _ (ih _ v hv)

/-- Unfolding `clusterLoop` when the anchor candidate is already
processed. -/
theorem clusterLoop_cons_processed {dist : Coordinates → Coordinates → ℚ}
    {adv : AdviceOracle} {now : String} {v1 : Village} {rest : List Village}
    {processed : List String} {i : ℕ} (h : v1.id ∈ processed) :
    clusterLoop dist adv now (v1 :: rest) processed i
      = clusterLoop dist adv now rest processed (i + 1) := by
  simp [clusterLoop, h]

/-- Unfolding `clusterLoop` when the anchor opens a cluster of at least two
members. -/
theorem clusterLoop_cons_big {dist : Coordinates → Coordinates → ℚ}
    {adv : AdviceOracle} {now : String} {v1 : Village} {rest : List Village}
    {processed : List String} {i : ℕ} (h : v1.id ∉ processed)
    (h2 : 2 ≤ (v1 :: (addNeighbors dist v1 rest (v1.id :: processed)).1).length) :
    clusterLoop dist adv now (v1 :: rest) processed i
      = mkCluster adv now i (v1 :: (addNeighbors dist v1 rest (v1.id :: processed)).1)
        :: clusterLoop dist adv now rest
            (addNeighbors dist v1 rest (v1.id :: processed)).2 (i + 1) := by
  have h3 : (addNeighbors dist v1 rest (v1.id :: processed)).1 ≠ [] := by
    intro he
    rw [he] at h2
    simp at h2
  simp [clusterLoop, h, h3]

/-- Unfolding `clusterLoop` when the anchor's candidate cluster is a
singleton and is discarded. -/
theorem clusterLoop_cons_small {dist : Coordinates → Coordinates → ℚ}
    {adv : AdviceOracle} {now : String} {v1 : Village} {rest : List Village}
    {processed : List String} {i : ℕ} (h : v1.id ∉ processed)
    (h2 : ¬ 2 ≤ (v1 :: (addNeighbors dist v1 rest (v1.id :: processed)).1).length) :
    clusterLoop dist adv now (v1 :: rest) processed i
      = clusterLoop dist adv now rest
          (addNeighbors dist v1 rest (v1.id :: processed)).2 (i + 1) := by
  have h3 : (addNeighbors dist v1 rest (v1.id :: processed)).1 = [] := by
    have hlt := Nat.lt_of_not_le h2
    simp only [List.length_cons] at hlt
    exact List.length_eq_zero.mp (by omega)
  simp [clusterLoop, h, h3]

/-- Every cluster emitted by `clusterLoop` is `mkCluster` applied to a
member list of at least two villages drawn from the scanned list. -/
theorem clusterLoop_spec (dist : Coordinates → Coordinates → ℚ)
    (adv : AdviceOracle) (now : String) :
    ∀ (l : List Village) (processed : List String) (i : ℕ),
      ∀ c ∈ clusterLoop dist adv now l processed i,
        ∃ n ms, 2 ≤ ms.length ∧ (∀ v ∈ ms, v ∈ l) ∧ c = mkCluster adv now n ms := by
  intro l
  induction l with
  | nil => intro processed i c hc; simp [clusterLoop] at hc
  | cons v1 rest ih =>
    intro processed i c hc
    by_cases h1 : v1.id ∈ processed
    · rw [clusterLoop_cons_processed h1] at hc
      obtain ⟨n, ms, g2, g3, g4⟩ := ih _ _ c hc
      exact ⟨n, ms, g2, fun v hv => List.mem_cons_of_mem _ (g3 v hv), g4⟩
    · by_cases h2 : 2 ≤ (v1 :: (addNeighbors dist v1 rest (v1.id :: processed)).1).length
      · rw [clusterLoop_cons_big h1 h2] at hc
        rcases List.mem_cons.mp hc with rfl | hc'
        · refine ⟨i, v1 :: (addNeighbors dist v1 rest (v1.id :: processed)).1, h2, ?_, rfl⟩
          intro v hv
          rcases List.mem_cons.mp hv with rfl | hv'
          · exact List.mem_cons_self _ _
          · exact List.mem_cons_of_mem _ (addNeighbors_mem dist v1 rest _ v hv')
        · obtain ⟨n, ms, g2, g3, g4⟩ := ih _ _ c hc'
          exact ⟨n, ms, g2, fun v hv => List.mem_cons_of_mem _ (g3 v hv), g4⟩
      · rw [clusterLoop_cons_small h1 h2] at hc
        obtain ⟨n, ms, g2, g3, g4⟩ := ih _ _ c hc
        exact ⟨n, ms, g2, fun v hv => List.mem_cons_of_mem _ (g3 v hv), g4⟩

/-! ### Claim theorems -/

/-- C2: ingestion sets the updated village's `activeCases` to the prior
value (of the found village, or 0 for a fresh one) plus
`report.affectedCount`, for every oracle — so it never decreases — and in
particular 2 prior cases plus a report affecting 5 yields 7. -/
theorem ingest_activeCases_additive (oracle : RiskOracle) (now : String)
    (villages : List Village) (report : CaseReport) (villageName : String) :
    (handleReportSubmit oracle now villages report villageName).updatedVillage.activeCases
      = ((villages.find? (fun v => v.id = report.villageId)).getD
          (freshVillage report villageName now)).activeCases + report.affectedCount
    ∧ ((villages.find? (fun v => v.id = report.villageId)).getD
          (freshVillage report villageName now)).activeCases
        ≤ (handleReportSubmit oracle now villages report villageName).updatedVillage.activeCases
    ∧ (handleReportSubmit oracle now
        [sampleVillage "E" 0 0 HealthStatus.GREEN 2] (sampleReport "E" "0,0" "fever" 5)
        "E").updatedVillage.activeCases = 7 := by
  refine ⟨rfl, ?_, rfl⟩
  exact Nat.le_add_right _ _

/-- C3: when the risk-oracle call for this ingestion fails, ingestion still
returns (the fallback path is total), the applied analysis is the fixed
fallback, so the updated village's status is YELLOW and the predicted
outbreak chance is 50. -/
theorem ingest_oracle_failure_fallback (oracle : RiskOracle) (now : String)
    (villages : List Village) (report : CaseReport) (villageName : String)
    (hfail : oracle ((villages.find? (fun v => v.id = report.villageId)).getD
        (freshVillage report villageName now)) report = none) :
    (handleReportSubmit oracle now villages report villageName).updatedVillage.status
      = HealthStatus.YELLOW
    ∧ (handleReportSubmit oracle now villages report villageName).analysis = fallbackAnalysis
    ∧ (handleReportSubmit oracle now villages report
        villageName).analysis.predictedOutbreakChance = 50 := by
  have hana : (handleReportSubmit oracle now villages report villageName).analysis
      = fallbackAnalysis := by
    show analyzeVillageHealth oracle _ report = fallbackAnalysis
    rw [analyzeVillageHealth, hfail]
  refine ⟨?_, hana, by rw [hana]; rfl⟩
  show ((handleReportSubmit oracle now villages report
    villageName).analysis).riskLevel = HealthStatus.YELLOW
  rw [hana]; rfl

/-- Witness for C3 at a concrete input: the always-failing oracle against a
one-village repository. -/
theorem ingest_oracle_failure_fallback_witness :
    (handleReportSubmit failOracle "t1" [sampleVillage "A" 0 0 HealthStatus.GREEN 2]
        (sampleReport "A" "0,0" "fever" 5) "A").updatedVillage.status = HealthStatus.YELLOW
    ∧ (handleReportSubmit failOracle "t1" [sampleVillage "A" 0 0 HealthStatus.GREEN 2]
        (sampleReport "A" "0,0" "fever" 5) "A").analysis = fallbackAnalysis
    ∧ (handleReportSubmit failOracle "t1" [sampleVillage "A" 0 0 HealthStatus.GREEN 2]
        (sampleReport "A" "0,0" "fever" 5) "A").analysis.predictedOutbreakChance = 50 :=
  ingest_oracle_failure_fallback failOracle "t1"
    [sampleVillage "A" 0 0 HealthStatus.GREEN 2] (sampleReport "A" "0,0" "fever" 5) "A" rfl

/-- C7: a report whose `villageId` is absent from the repository creates a
new village (appended to the list) whose coordinates come from
`parseWorkerCoords` applied to `report.workerLocation`; that parser maps
"18.3,83.5" to (18.3, 83.5) and the comma-less "bad input" to the fixed
default center. -/
theorem ingest_new_village_coords (oracle : RiskOracle) (now : String)
    (villages : List Village) (report : CaseReport) (villageName : String)
    (habsent : villages.find? (fun v => v.id = report.villageId) = none) :
    (handleReportSubmit oracle now villages report villageName).updatedVillage.coordinates
      = parseWorkerCoords report.workerLocation
    ∧ (handleReportSubmit oracle now villages report villageName).villages
      = villages ++ [(handleReportSubmit oracle now villages report villageName).updatedVillage]
    ∧ parseWorkerCoords "18.3,83.5" = { lat := 18.3, lng := 83.5 }
    ∧ parseWorkerCoords "bad input" = defaultCenter := by
  refine ⟨?_, ?_, ?_, ?_⟩
  · simp only [handleReportSubmit, habsent, Option.getD]
    rfl
  · simp only [handleReportSubmit, habsent]
  · have h : parseWorkerCoordsRepr "18.3,83.5".toList
        = some ((false, 18, 3, 1), (false, 83, 5, 1)) := by decide
    simp only [parseWorkerCoords, h]
    norm_num [floatReprToRat, Coordinates.mk.injEq]
  · have h : parseWorkerCoordsRepr "bad input".toList = none := by decide
    simp only [parseWorkerCoords, h]

/-- Witness for C7 at a concrete input: a report against the unknown id
"Z". -/
theorem ingest_new_village_coords_witness :
    (handleReportSubmit failOracle "t1" [sampleVillage "A" 0 0 HealthStatus.GREEN 2]
        (sampleReport "Z" "18.3,83.5" "fever" 5) "Z").updatedVillage.coordinates
      = parseWorkerCoords (sampleReport "Z" "18.3,83.5" "fever" 5).workerLocation
    ∧ (handleReportSubmit failOracle "t1" [sampleVillage "A" 0 0 HealthStatus.GREEN 2]
        (sampleReport "Z" "18.3,83.5" "fever" 5) "Z").villages
      = [sampleVillage "A" 0 0 HealthStatus.GREEN 2]
        ++ [(handleReportSubmit failOracle "t1" [sampleVillage "A" 0 0 HealthStatus.GREEN 2]
              (sampleReport "Z" "18.3,83.5" "fever" 5) "Z").updatedVillage]
    ∧ parseWorkerCoords "18.3,83.5" = { lat := 18.3, lng := 83.5 }
    ∧ parseWorkerCoords "bad input" = defaultCenter :=
  ingest_new_village_coords failOracle "t1" [sampleVillage "A" 0 0 HealthStatus.GREEN 2]
    (sampleReport "Z" "18.3,83.5" "fever" 5) "Z" (by decide)

/-- C8: the updated village always caches exactly the analysis produced for
this ingestion — the oracle's structured result, or the fallback when the
oracle fails (the second conjunct pins the cached value to
`analyzeVillageHealth` on the resolved village). -/
theorem ingest_caches_lastAnalysis (oracle : RiskOracle) (now : String)
    (villages : List Village) (report : CaseReport) (villageName : String) :
    (handleReportSubmit oracle now villages report villageName).updatedVillage.lastAnalysis
      = some (handleReportSubmit oracle now villages report villageName).analysis
    ∧ (handleReportSubmit oracle now villages report villageName).analysis
      = analyzeVillageHealth oracle
          ((villages.find? (fun v => v.id = report.villageId)).getD
            (freshVillage report villageName now)) report :=
  ⟨rfl, rfl⟩

/-- C1 counterexample: four successive ingestions of reports with distinct
first symptom tokens leave the village with 4 distinct `dominantSymptoms`
entries — the claimed 3-entry cap is not enforced by the ingestion code. -/
theorem dominantSymptoms_cap_counterexample :
    ¬ ((handleReportSubmit failOracle "t"
        (ingestStep "s3" (ingestStep "s2" (ingestStep "s1"
          [sampleVillage "A" 0 0 HealthStatus.GREEN 0])))
        (sampleReport "A" "0,0" "s4" 1) "A").updatedVillage.dominantSymptoms.length ≤ 3)
    ∧ (handleReportSubmit failOracle "t"
        (ingestStep "s3" (ingestStep "s2" (ingestStep "s1"
          [sampleVillage "A" 0 0 HealthStatus.GREEN 0])))
        (sampleReport "A" "0,0" "s4" 1) "A").updatedVillage.dominantSymptoms
      = ["s1", "s2", "s3", "s4"] := by
  exact ⟨by decide, by decide⟩

/-- C1 (amended): after each ingestion the updated village's
`dominantSymptoms` entries are distinct, and at most one entry is added per
ingestion; there is no 3-entry cap. -/
theorem ingest_dominantSymptoms_distinct (oracle : RiskOracle) (now : String)
    (villages : List Village) (report : CaseReport) (villageName : String) :
    (handleReportSubmit oracle now villages report
        villageName).updatedVillage.dominantSymptoms.Nodup
    ∧ (handleReportSubmit oracle now villages report
        villageName).updatedVillage.dominantSymptoms.length
      ≤ ((villages.find? (fun v => v.id = report.villageId)).getD
          (freshVillage report villageName now)).dominantSymptoms.length + 1 :=
  ⟨jsSetDedup_nodup _, jsSetDedup_snoc_length _ _⟩

/-- C9: adding a comment against an absent village id is a no-op on the
whole village list; against a present id (and a non-blank comment text, the
only case in which the handler creates a comment at all), the new comment
is prepended to exactly the matching villages' comment lists while every
other village passes through unchanged, positions preserved. -/
theorem addComment_noop_or_prepend (villages : List Village)
    (villageId commentText newId now : String) :
    ((∀ v ∈ villages, v.id ≠ villageId) →
      handleAddComment villages villageId commentText newId now = villages)
    ∧ (trimChars commentText.toList ≠ [] →
        List.Forall₂ (fun v v' =>
          (v.id = villageId →
            v' = { v with comments :=
              { id := newId, author := "Public User", text := commentText,
                timestamp := now } :: v.comments })
          ∧ (v.id ≠ villageId → v' = v)) villages
          (handleAddComment villages villageId commentText newId now)) := by
  constructor
  · intro habs
    simp only [handleAddComment]
    split
    · rfl
    · conv_rhs => rw [← List.map_id villages]
      exact List.map_congr_left (fun v hv => by simp [habs v hv])
  · intro htrim
    simp only [handleAddComment, if_neg htrim]
    rw [List.forall₂_map_right_iff, List.forall₂_same]
    intro v _
    constructor
    · intro h
      simp [h]
    · intro h
      simp [h]

/-- Witness for C9 at concrete inputs: id "Z" absent from a one-village
repository (no-op), and id "A" present (prepend). -/
theorem addComment_noop_or_prepend_witness :
    handleAddComment [sampleVillage "A" 0 0 HealthStatus.GREEN 2] "Z" "hello" "c1" "t2"
      = [sampleVillage "A" 0 0 HealthStatus.GREEN 2]
    ∧ List.Forall₂ (fun v v' =>
        (v.id = "A" →
          v' = { v with comments :=
            { id := "c1", author := "Public User", text := "hello",
              timestamp := "t2" } :: v.comments })
        ∧ (v.id ≠ "A" → v' = v))
        [sampleVillage "A" 0 0 HealthStatus.GREEN 2]
        (handleAddComment [sampleVillage "A" 0 0 HealthStatus.GREEN 2] "A" "hello" "c1" "t2") :=
  ⟨(addComment_noop_or_prepend [sampleVillage "A" 0 0 HealthStatus.GREEN 2]
      "Z" "hello" "c1" "t2").1 (by decide),
   (addComment_noop_or_prepend [sampleVillage "A" 0 0 HealthStatus.GREEN 2]
      "A" "hello" "c1" "t2").2 (by decide)⟩

/-- C10 counterexample: ingestion against an existing village also changes
`lastAnalysis` (from `none` to the cached analysis), so the claim that only
`activeCases`, `status`, `lastReported`, `lastAshaWorker` and
`dominantSymptoms` are modified fails. -/
theorem ingest_frame_counterexample :
    [sampleVillage "A" 0 0 HealthStatus.GREEN 2].find?
        (fun v => v.id = (sampleReport "A" "0,0" "fever" 5).villageId)
      = some (sampleVillage "A" 0 0 HealthStatus.GREEN 2)
    ∧ (handleReportSubmit failOracle "t1" [sampleVillage "A" 0 0 HealthStatus.GREEN 2]
        (sampleReport "A" "0,0" "fever" 5) "A").updatedVillage.lastAnalysis
      ≠ (sampleVillage "A" 0 0 HealthStatus.GREEN 2).lastAnalysis :=
  ⟨rfl, by decide⟩

/-- C10 (amended): ingestion against an existing village keeps its `id`,
`name`, `district`, `coordinates`, `population` and `comments` unchanged;
the modified fields are `activeCases`, `status`, `lastReported`,
`lastAshaWorker`, `dominantSymptoms` and additionally `lastAnalysis`. -/
theorem ingest_frame_preserved (oracle : RiskOracle) (now : String)
    (villages : List Village) (report : CaseReport) (villageName : String)
    (v : Village)
    (hfound : villages.find? (fun w => w.id = report.villageId) = some v) :
    (handleReportSubmit oracle now villages report villageName).updatedVillage.id = v.id
    ∧ (handleReportSubmit oracle now villages report villageName).updatedVillage.name = v.name
    ∧ (handleReportSubmit oracle now villages report
        villageName).updatedVillage.district = v.district
    ∧ (handleReportSubmit oracle now villages report
        villageName).updatedVillage.coordinates = v.coordinates
    ∧ (handleReportSubmit oracle now villages report
        villageName).updatedVillage.population = v.population
    ∧ (handleReportSubmit oracle now villages report
        villageName).updatedVillage.comments = v.comments := by
  refine ⟨?_, ?_, ?_, ?_, ?_, ?_⟩ <;>
    simp only [handleReportSubmit, hfound, Option.getD]

/-- Witness for C10's amended frame property at a concrete input. -/
theorem ingest_frame_preserved_witness :
    (handleReportSubmit failOracle "t1" [sampleVillage "A" 0 0 HealthStatus.GREEN 2]
        (sampleReport "A" "0,0" "fever" 5) "A").updatedVillage.id
      = (sampleVillage "A" 0 0 HealthStatus.GREEN 2).id
    ∧ (handleReportSubmit failOracle "t1" [sampleVillage "A" 0 0 HealthStatus.GREEN 2]
        (sampleReport "A" "0,0" "fever" 5) "A").updatedVillage.name
      = (sampleVillage "A" 0 0 HealthStatus.GREEN 2).name
    ∧ (handleReportSubmit failOracle "t1" [sampleVillage "A" 0 0 HealthStatus.GREEN 2]
        (sampleReport "A" "0,0" "fever" 5) "A").updatedVillage.district
      = (sampleVillage "A" 0 0 HealthStatus.GREEN 2).district
    ∧ (handleReportSubmit failOracle "t1" [sampleVillage "A" 0 0 HealthStatus.GREEN 2]
        (sampleReport "A" "0,0" "fever" 5) "A").updatedVillage.coordinates
      = (sampleVillage "A" 0 0 HealthStatus.GREEN 2).coordinates
    ∧ (handleReportSubmit failOracle "t1" [sampleVillage "A" 0 0 HealthStatus.GREEN 2]
        (sampleReport "A" "0,0" "fever" 5) "A").updatedVillage.population
      = (sampleVillage "A" 0 0 HealthStatus.GREEN 2).population
    ∧ (handleReportSubmit failOracle "t1" [sampleVillage "A" 0 0 HealthStatus.GREEN 2]
        (sampleReport "A" "0,0" "fever" 5) "A").updatedVillage.comments
      = (sampleVillage "A" 0 0 HealthStatus.GREEN 2).comments :=
  ingest_frame_preserved failOracle "t1" [sampleVillage "A" 0 0 HealthStatus.GREEN 2]
    (sampleReport "A" "0,0" "fever" 5) "A" (sampleVillage "A" 0 0 HealthStatus.GREEN 2) rfl

/-- C5: every cluster the detector emits has at least two member village
ids. -/
theorem clusters_min_two_members (dist : Coordinates → Coordinates → ℚ)
    (adv : AdviceOracle) (now : String) (villages : List Village) :
    ∀ c ∈ analyzeClusters dist adv now villages, 2 ≤ c.villageIds.length := by
  intro c hc
  obtain ⟨n, ms, h2, _, rfl⟩ := clusterLoop_spec dist adv now _ [] 0 c hc
  simpa [mkCluster] using h2

/-- Witness for C5: two in-range YELLOW villages produce a two-member
cluster. -/
theorem clusters_min_two_members_witness :
    2 ≤ (mkCluster noAdvice "n" 0
      [sampleVillage "A" 0 0 HealthStatus.YELLOW 1,
       sampleVillage "B" 1 0 HealthStatus.YELLOW 1]).villageIds.length :=
  clusters_min_two_members zeroDist noAdvice "n"
    [sampleVillage "A" 0 0 HealthStatus.YELLOW 1,
     sampleVillage "B" 1 0 HealthStatus.YELLOW 1]
    (mkCluster noAdvice "n" 0
      [sampleVillage "A" 0 0 HealthStatus.YELLOW 1,
       sampleVillage "B" 1 0 HealthStatus.YELLOW 1])
    (by exact List.mem_cons_self _ _)

/-- C6: every emitted cluster's severity is RED exactly when some member
village (members are non-GREEN villages of the input) has status RED, and
otherwise YELLOW. -/
theorem cluster_severity_red_iff (dist : Coordinates → Coordinates → ℚ)
    (adv : AdviceOracle) (now : String) (villages : List Village) :
    ∀ c ∈ analyzeClusters dist adv now villages,
      ∃ members : List Village,
        (∀ v ∈ members, v ∈ villages ∧ v.status ≠ HealthStatus.GREEN)
        ∧ c.villageIds = members.map Village.id
        ∧ (c.severity = HealthStatus.RED ↔ ∃ v ∈ members, v.status = HealthStatus.RED)
        ∧ (c.severity = HealthStatus.RED ∨ c.severity = HealthStatus.YELLOW) := by
  intro c hc
  obtain ⟨n, ms, _, hmem, rfl⟩ := clusterLoop_spec dist adv now _ [] 0 c hc
  refine ⟨ms, ?_, rfl, ?_, ?_⟩
  · intro v hv
    have := hmem v hv
    simpa using List.mem_filter.mp this
  · by_cases h : ms.any (fun v => v.status = HealthStatus.RED) = true
    · have hsev : (mkCluster adv now n ms).severity = HealthStatus.RED := by
        simp only [mkCluster]
        rw [if_pos h]
      rw [hsev]
      simpa using List.any_eq_true.mp h
    · have hsev : (mkCluster adv now n ms).severity = HealthStatus.YELLOW := by
        simp only [mkCluster]
        rw [if_neg h]
      rw [hsev]
      constructor
      · intro hcon
        exact absurd hcon (by simp)
      · intro hex
        exact absurd (List.any_eq_true.mpr (by simpa using hex)) h
  · by_cases h : ms.any (fun v => v.status = HealthStatus.RED) = true
    · left
      simp only [mkCluster]
      rw [if_pos h]
    · right
      simp only [mkCluster]
      rw [if_neg h]

/-- Witness for C6: a RED and a YELLOW village in range form a cluster, on
which the severity characterization is instantiated. -/
theorem cluster_severity_red_iff_witness :
    ∃ members : List Village,
      (∀ v ∈ members,
        v ∈ [sampleVillage "A" 0 0 HealthStatus.RED 3,
             sampleVillage "B" 1 0 HealthStatus.YELLOW 1]
        ∧ v.status ≠ HealthStatus.GREEN)
      ∧ (mkCluster noAdvice "n" 0
          [sampleVillage "A" 0 0 HealthStatus.RED 3,
           sampleVillage "B" 1 0 HealthStatus.YELLOW 1]).villageIds
        = members.map Village.id
      ∧ ((mkCluster noAdvice "n" 0
          [sampleVillage "A" 0 0 HealthStatus.RED 3,
           sampleVillage "B" 1 0 HealthStatus.YELLOW 1]).severity = HealthStatus.RED
        ↔ ∃ v ∈ members, v.status = HealthStatus.RED)
      ∧ ((mkCluster noAdvice "n" 0
          [sampleVillage "A" 0 0 HealthStatus.RED 3,
           sampleVillage "B" 1 0 HealthStatus.YELLOW 1]).severity = HealthStatus.RED
        ∨ (mkCluster noAdvice "n" 0
          [sampleVillage "A" 0 0 HealthStatus.RED 3,
           sampleVillage "B" 1 0 HealthStatus.YELLOW 1]).severity = HealthStatus.YELLOW) :=
  cluster_severity_red_iff zeroDist noAdvice "n"
    [sampleVillage "A" 0 0 HealthStatus.RED 3,
     sampleVillage "B" 1 0 HealthStatus.YELLOW 1]
    (mkCluster noAdvice "n" 0
      [sampleVillage "A" 0 0 HealthStatus.RED 3,
       sampleVillage "B" 1 0 HealthStatus.YELLOW 1])
    (by exact List.mem_cons_self _ _)

/-- C4: for three non-GREEN villages A, B, C (with distinct ids) scanned in
that order, with A-B = 10 km, B-C = 10 km and A-C = 25 km against the 15 km
threshold, the detector emits exactly one cluster whose member ids are
[A.id, B.id]; C belongs to no emitted cluster. -/
theorem cluster_star_grouping (A B C : Village)
    (dist : Coordinates → Coordinates → ℚ) (adv : AdviceOracle) (now : String)
    (hA : A.status ≠ HealthStatus.GREEN) (hB : B.status ≠ HealthStatus.GREEN)
    (hC : C.status ≠ HealthStatus.GREEN)
    (hAB : A.id ≠ B.id) (hAC : A.id ≠ C.id) (hBC : B.id ≠ C.id)
    (dAB : dist A.coordinates B.coordinates = 10000)
    (dBC : dist B.coordinates C.coordinates = 10000)
    (dAC : dist A.coordinates C.coordinates = 25000) :
    (analyzeClusters dist adv now [A, B, C]).map OutbreakCluster.villageIds = [[A.id, B.id]]
    ∧ ∀ c ∈ analyzeClusters dist adv now [A, B, C], C.id ∉ c.villageIds := by
  have hfilter : [A, B, C].filter (fun v => v.status ≠ HealthStatus.GREEN) = [A, B, C] := by
    simp [List.filter, hA, hB, hC]
  have hnbC : addNeighbors dist A [C] [B.id, A.id] = ([], [B.id, A.id]) := by
    rw [addNeighbors_cons_far (by simp [Ne.symm hAC, Ne.symm hBC])
      (by rw [dAC]; norm_num [DISTANCE_THRESHOLD])]
    rfl
  have hnb : addNeighbors dist A [B, C] [A.id]
      = ([B], [B.id, A.id]) := by
    rw [addNeighbors_cons_near (by simp [Ne.symm hAB])
      (by rw [dAB]; norm_num [DISTANCE_THRESHOLD]), hnbC]
  have hrun : analyzeClusters dist adv now [A, B, C] = [mkCluster adv now 0 [A, B]] := by
    show clusterLoop dist adv now
        ([A, B, C].filter (fun v => v.status ≠ HealthStatus.GREEN)) [] 0
      = [mkCluster adv now 0 [A, B]]
    rw [hfilter]
    rw [clusterLoop_cons_big (by simp) (by rw [hnb]; simp), hnb]
    dsimp only
    rw [clusterLoop_cons_processed (by simp)]
    rw [clusterLoop_cons_small (by simp [Ne.symm hAC, Ne.symm hBC]) (by simp [addNeighbors])]
    rfl
  constructor
  · rw [hrun]
    simp [mkCluster]
  · intro c hc
    rw [hrun] at hc
    rcases List.mem_singleton.mp hc with rfl
    simp [mkCluster, Ne.symm hAC, Ne.symm hBC]

/-- Witness for C4: concrete villages at table latitudes 0, 1, 2 with the
tabulated distances. -/
theorem cluster_star_grouping_witness :
    (analyzeClusters tableDist noAdvice "n"
      [sampleVillage "A" 0 0 HealthStatus.RED 3,
       sampleVillage "B" 1 0 HealthStatus.YELLOW 1,
       sampleVillage "C" 2 0 HealthStatus.YELLOW 1]).map OutbreakCluster.villageIds
      = [["A", "B"]]
    ∧ ∀ c ∈ analyzeClusters tableDist noAdvice "n"
        [sampleVillage "A" 0 0 HealthStatus.RED 3,
         sampleVillage "B" 1 0 HealthStatus.YELLOW 1,
         sampleVillage "C" 2 0 HealthStatus.YELLOW 1],
        (sampleVillage "C" 2 0 HealthStatus.YELLOW 1).id ∉ c.villageIds :=
  cluster_star_grouping
    (sampleVillage "A" 0 0 HealthStatus.RED 3)
    (sampleVillage "B" 1 0 HealthStatus.YELLOW 1)
    (sampleVillage "C" 2 0 HealthStatus.YELLOW 1)
    tableDist noAdvice "n"
    (by decide) (by decide) (by decide)
    (by decide) (by decide) (by decide)
    (by norm_num [tableDist, sampleVillage])
    (by norm_num [tableDist, sampleVillage])
    (by norm_num [tableDist, sampleVillage])

end HealthGuard
